import Mathlib

/-!
Verification development for the action-execution loop and workflow
orchestration engine of the computer-use-agent repository.

The Python sources are shallowly embedded:

* `os_computer_use/api_agent.py` (`APISandboxAgent.execute_single_step`,
  `APISandboxAgent.run_with_tracking`) is embedded as pure state-passing
  functions over `RunState`.  The external collaborators (the decision
  oracle `action_model.call`, the base `call_function` tool executor,
  `append_screenshot`, `sandbox.set_timeout`) live outside the repository
  and are modelled as an `Env` record of possibly-faulting functions,
  matching the boundary contract in the specification.  Python exceptions
  are modelled with `Except`; since attribute mutation survives an
  exception, errors carry the state at the fault point.
* `os_computer_use/demo_agent.py` and `os_computer_use/demo_orchestrator.py`
  are embedded over `DemoAgentState` / `OrchState`; the regular expressions
  of `validate_inputs` are embedded with an executable regular-expression
  matcher (Brzozowski derivatives) including Python's behaviour of `$`
  also matching just before a single trailing newline under `re.match`.

Wall-clock reads (`datetime.now()`) are modelled by a logical clock that
ticks on every read.  Logging is side-effect free in the model
(`logger.log` returns its message unchanged, which is how the source
uses its return value).
-/

/-- A conversation message.  `Message(text)` in the source defaults the
role; the exact role tags never influence control flow, only the content
does (the single-step dedup check reads `.get("content")`). -/
structure Message where
  content : String
  role : String
deriving DecidableEq, Repr

/-- A tool call proposed by the decision oracle: a name plus a parameter
mapping.  Parameter values are rendered as strings in the model. -/
abbrev Params := List (String × String)

structure ToolCall where
  name : String
  parameters : Params
deriving DecidableEq, Repr

/-- One entry of `self.tracked_actions` in `run_with_tracking`.  The
`completed` key is only present on the stop / timeout / error entries,
hence an `Option`. -/
structure TrackedAction where
  action : String
  parameters : Params
  result : String
  timestamp : Nat
  completed : Option Bool
deriving DecidableEq, Repr

/-- The outcome dictionary returned by `execute_single_step`: it always
carries all five keys. -/
structure Outcome where
  action : String
  parameters : Params
  result : String
  completed : Bool
  timestamp : Nat
deriving DecidableEq, Repr

/-- A function value stored in the `call_function` attribute: either the
inherited base executor, or the `tracked_call_function` wrapper closing
over the previous value. -/
inductive FnVal where
  | base : FnVal
  | tracked : FnVal → FnVal
deriving DecidableEq, Repr

/-- The mutable attributes of `APISandboxAgent` relevant to the embedded
methods, plus the run-local variables closed over by
`tracked_call_function` (`stop_detected`) and the loop locals of
`run_with_tracking`, plus instrumentation (`oracle_calls`) and the
logical clock. -/
structure RunState where
  messages : List Message
  tracked_actions : List TrackedAction
  call_function : FnVal
  stop_detected : Bool
  should_continue : Bool
  iteration_count : Nat
  oracle_calls : Nat
  clock : Nat
deriving DecidableEq, Repr

/-- External collaborators of the step runner, each possibly faulting. -/
structure Env where
  oracle : List Message → Except String (Option String × List ToolCall)
  base_call_function : String → Params → Except String String
  append_screenshot : List Message → Except String String
  set_timeout : Except String Unit

def push_msg (st : RunState) (content : String) : RunState :=
  { st with messages := st.messages ++ [⟨content, "user"⟩] }

def params_str (ps : Params) : String :=
  String.intercalate ", " (ps.map fun p => p.1 ++ "=" ++ p.2)

/-- Rendering of `json.dumps(tool_call)`; the exact text is never
inspected again, only appended to the conversation. -/
def json_dumps (tc : ToolCall) : String :=
  "\x7b name: " ++ tc.name ++ ", parameters: " ++ params_str tc.parameters ++ " \x7d"

/-- Conversation actually handed to `action_model.call`: system prompt,
the running message list, the fresh screenshot thought, and the final
instruction (which differs between single-step and multi-step mode). -/
def oracle_input (msgs : List Message) (shot : String) (final_prompt : String) :
    List Message :=
  ⟨"You are an AI assistant with computer use abilities.", "system"⟩ ::
    msgs ++ [⟨"THOUGHT: " ++ shot, "user"⟩, ⟨final_prompt, "user"⟩]

def single_step_prompt : String :=
  "I will now use tool calls to take the next single action, or use the stop command if the objective is complete."

def multi_step_prompt : String :=
  "I will now use tool calls to take these actions, or use the stop command if the objective is complete."

/-- Dispatch of `self.call_function(name, arguments)`.  The `tracked`
wrapper first runs the wrapped function, then appends a tracking record
(with a `completed` key and the `stop_detected` flag only for a stop
action) and returns the result unchanged; a fault inside the wrapped
function propagates before any record is appended. -/
def interp_call_function (env : Env) :
    FnVal → String → Params → RunState → Except (String × RunState) (String × RunState)
  | FnVal.base, name, args, st =>
    match env.base_call_function name args with
    | Except.ok r => Except.ok (r, st)
    | Except.error e => Except.error (e, st)
  | FnVal.tracked orig, name, args, st =>
    match interp_call_function env orig name args st with
    | Except.error e => Except.error e
    | Except.ok (r, st) =>
      let entry : TrackedAction :=
        { action := name, parameters := args, result := r, timestamp := st.clock,
          completed := if name == "stop" then some true else none }
      Except.ok (r, { st with
        tracked_actions := st.tracked_actions ++ [entry],
        stop_detected := st.stop_detected || name == "stop",
        clock := st.clock + 1 })

/-- The `for tool_call in tool_calls` body of `run_with_tracking`:
`should_continue` is reassigned per call; a stop call sets
`stop_detected` and breaks before any executor call; other calls are
appended to the conversation, executed through `self.call_function`,
and their observation appended. -/
def process_tool_calls (env : Env) :
    List ToolCall → RunState → Except (String × RunState) RunState
  | [], st => Except.ok st
  | tc :: rest, st =>
    let st := { st with should_continue := tc.name != "stop" }
    if tc.name == "stop" then
      Except.ok { st with stop_detected := true }
    else
      let st := push_msg st (json_dumps tc)
      match interp_call_function env st.call_function tc.name tc.parameters st with
      | Except.error e => Except.error e
      | Except.ok (result, st) =>
        process_tool_calls env rest (push_msg st ("OBSERVATION: " ++ result))

def max_iterations : Nat := 20

/-- Embeds `if content: self.messages.append(...)` — the optional rationale of a
turn is appended to the conversation as a thought. -/
def append_thought (content : Option String) (st : RunState) : RunState :=
  match content with
  | some c => push_msg st ("THOUGHT: " ++ c)
  | none => st

/-- One iteration of the `while` loop of `run_with_tracking`. -/
def run_iteration (env : Env) (st0 : RunState) : Except (String × RunState) RunState :=
  let st := { st0 with iteration_count := st0.iteration_count + 1 }
  match env.set_timeout with
  | Except.error e => Except.error (e, st)
  | Except.ok _ =>
    match env.append_screenshot st.messages with
    | Except.error e => Except.error (e, st)
    | Except.ok shot =>
      let st := { st with oracle_calls := st.oracle_calls + 1 }
      match env.oracle (oracle_input st.messages shot multi_step_prompt) with
      | Except.error e => Except.error (e, st)
      | Except.ok (content, tool_calls) =>
        process_tool_calls env tool_calls
          { append_thought content st with should_continue := false }

/-- The `while should_continue and iteration_count < max_iterations`
loop, fuelled; `run_with_tracking` supplies fuel `max_iterations`, which
is sufficient because every iteration increments `iteration_count`
(fuel-irrelevance is proved below). -/
def run_loop (env : Env) : Nat → RunState → Except (String × RunState) RunState
  | 0, st => Except.ok st
  | fuel + 1, st =>
    if st.should_continue ∧ st.iteration_count < max_iterations then
      match run_iteration env st with
      | Except.error e => Except.error e
      | Except.ok st' => run_loop env fuel st'
    else Except.ok st

/-- The `self.call_function = tracked_call_function` substitution:
it alters the `call_function` attribute and nothing else. -/
def install_tracking (s : RunState) : RunState :=
  { s with call_function := FnVal.tracked s.call_function }

/-- State at loop entry: `tracked_actions` cleared, flags and counter
reset, tracking wrapper installed, objective appended. -/
def rwt_start (instruction : String) (s0 : RunState) : RunState :=
  push_msg
    (install_tracking
      { s0 with tracked_actions := [], stop_detected := false,
                should_continue := true, iteration_count := 0 })
    ("OBJECTIVE: " ++ instruction)

def timeout_entry (ts : Nat) : TrackedAction :=
  { action := "timeout", parameters := [("max_iterations", "20")],
    result := "Task stopped after 20 iterations without completion",
    timestamp := ts, completed := some false }

def error_entry (e : String) (ts : Nat) : TrackedAction :=
  { action := "error", parameters := [], result := e,
    timestamp := ts, completed := some false }

/-- Embeds `APISandboxAgent.run_with_tracking`.  Returns the final object state,
the `tracked_actions` list and the `completed` flag.  The `finally`
block restoring `call_function` is reflected in both arms. -/
def run_with_tracking (env : Env) (instruction : String) (s0 : RunState) :
    RunState × List TrackedAction × Bool :=
  let original := s0.call_function
  match run_loop env max_iterations (rwt_start instruction s0) with
  | Except.ok st =>
    let completed := st.stop_detected
    let st :=
      if max_iterations ≤ st.iteration_count ∧ st.stop_detected = false then
        { st with tracked_actions := st.tracked_actions ++ [timeout_entry st.clock],
                  clock := st.clock + 1 }
      else st
    ({ st with call_function := original }, st.tracked_actions, completed)
  | Except.error (e, st) =>
    let st :=
      { st with tracked_actions := st.tracked_actions ++ [error_entry e st.clock],
                clock := st.clock + 1 }
    ({ st with call_function := original }, st.tracked_actions, false)

/-- The `try` block of `execute_single_step`. -/
def single_step_body (env : Env) (instruction : String) (s : RunState) :
    Except (String × RunState) (Outcome × RunState) :=
  let obj := "OBJECTIVE: " ++ instruction
  let s :=
    match s.messages.getLast? with
    | some m => if m.content == obj then s else push_msg s obj
    | none => push_msg s obj
  match env.set_timeout with
  | Except.error e => Except.error (e, s)
  | Except.ok _ =>
    match env.append_screenshot s.messages with
    | Except.error e => Except.error (e, s)
    | Except.ok shot =>
      let s := { s with oracle_calls := s.oracle_calls + 1 }
      match env.oracle (oracle_input s.messages shot single_step_prompt) with
      | Except.error e => Except.error (e, s)
      | Except.ok (content, tool_calls) =>
        let s :=
          match content with
          | some c => push_msg s ("THOUGHT: " ++ c)
          | none => s
        match tool_calls with
        | [] =>
          Except.ok
            ({ action := "none", parameters := [], result := "No action determined",
               completed := false, timestamp := s.clock },
             { s with clock := s.clock + 1 })
        | tc :: _ =>
          if tc.name == "stop" then
            Except.ok
              ({ action := "stop", parameters := [], result := "Task completed",
                 completed := true, timestamp := s.clock },
               { s with clock := s.clock + 1 })
          else
            let s := push_msg s (json_dumps tc)
            match interp_call_function env s.call_function tc.name tc.parameters s with
            | Except.error e => Except.error e
            | Except.ok (result, s) =>
              let s := push_msg s ("OBSERVATION: " ++ result)
              Except.ok
                ({ action := tc.name, parameters := tc.parameters, result := result,
                   completed := false, timestamp := s.clock },
                 { s with clock := s.clock + 1 })

/-- Embeds `APISandboxAgent.execute_single_step`: the catch-all `except` turns
any fault into an `action="error"` outcome; every exit returns all five
outcome fields. -/
def execute_single_step (env : Env) (instruction : String) (s : RunState) :
    RunState × Outcome :=
  match single_step_body env instruction s with
  | Except.ok (o, s') => (s', o)
  | Except.error (e, s') =>
    ({ s' with clock := s'.clock + 1 },
     { action := "error", parameters := [], result := "Error: " ++ e,
       completed := false, timestamp := s'.clock })

/-!
## Regular-expression matcher

`DemoAgent.validate_inputs` checks its two URL arguments with
`re.match` against anchored patterns.  We embed a standard executable
matcher based on Brzozowski derivatives; the two patterns are
transliterated below.  `re.match` with a pattern ending in `$` succeeds
exactly when the pattern matches the whole string, or the whole string
minus one trailing newline (Python `$` semantics); `re_match_py`
implements this.  `\w` is modelled as ASCII `[A-Za-z0-9_]`.
-/

inductive RE where
  | emp : RE
  | eps : RE
  | cls : (Char → Bool) → RE
  | seq : RE → RE → RE
  | alt : RE → RE → RE
  | star : RE → RE

def RE.nullable : RE → Bool
  | RE.emp => false
  | RE.eps => true
  | RE.cls _ => false
  | RE.seq a b => a.nullable && b.nullable
  | RE.alt a b => a.nullable || b.nullable
  | RE.star _ => true

/-- Smart constructors keep derivative terms small (a pure
simplification; the recognised language is unchanged). -/
def mkSeq : RE → RE → RE
  | RE.emp, _ => RE.emp
  | RE.eps, b => b
  | _, RE.emp => RE.emp
  | a, RE.eps => a
  | a, b => RE.seq a b

def mkAlt : RE → RE → RE
  | RE.emp, b => b
  | a, RE.emp => a
  | a, b => RE.alt a b

def RE.deriv : RE → Char → RE
  | RE.emp, _ => RE.emp
  | RE.eps, _ => RE.emp
  | RE.cls p, c => if p c then RE.eps else RE.emp
  | RE.seq a b, c =>
    if a.nullable then mkAlt (mkSeq (a.deriv c) b) (b.deriv c)
    else mkSeq (a.deriv c) b
  | RE.alt a b, c => mkAlt (a.deriv c) (b.deriv c)
  | RE.star a, c => mkSeq (a.deriv c) (RE.star a)

def re_matches (r : RE) (s : List Char) : Bool :=
  (s.foldl RE.deriv r).nullable

/-- Python `re.match` with a `$`-anchored pattern. -/
def re_match_py (r : RE) (s : String) : Bool :=
  re_matches r s.toList ||
    (match s.toList.getLast? with
     | some c => if c == '\n' then re_matches r s.toList.dropLast else false
     | none => false)

def re_lit (s : String) : RE :=
  s.toList.foldr (fun c r => mkSeq (RE.cls (fun d => d == c)) r) RE.eps

def re_plus (r : RE) : RE := RE.seq r (RE.star r)

def re_opt (r : RE) : RE := RE.alt r RE.eps

def re_rep (n : Nat) (r : RE) : RE :=
  match n with
  | 0 => RE.eps
  | n + 1 => mkSeq r (re_rep n r)

/-- The character class `[\w\-\.]` of the GitHub pattern. -/
def gh_char : RE :=
  RE.cls (fun c => c.isAlphanum || c == '_' || c == '-' || c == '.')

/-- Embeds `https://github\.com/[\w\-\.]+/[\w\-\.]+/?(?:\.git)?$` -/
def github_pattern : RE :=
  RE.seq (re_lit "https://github.com/")
    (RE.seq (re_plus gh_char)
      (RE.seq (re_lit "/")
        (RE.seq (re_plus gh_char)
          (RE.seq (re_opt (re_lit "/")) (re_opt (re_lit ".git"))))))

def lower_char : RE := RE.cls (fun c => 'a' ≤ c && c ≤ 'z')

/-- Embeds `https://meet\.google\.com/[a-z]{3}-[a-z]{4}-[a-z]{3}$` -/
def meet_pattern : RE :=
  RE.seq (re_lit "https://meet.google.com/")
    (RE.seq (re_rep 3 lower_char)
      (RE.seq (re_lit "-")
        (RE.seq (re_rep 4 lower_char)
          (RE.seq (re_lit "-") (re_rep 3 lower_char)))))

/-!
## Demo agent session state (`os_computer_use/demo_agent.py`)
-/

/-- Embeds `self.demo_progress`.  Optional keys only present after
`initialize_demo_session` are `Option`s. -/
structure DemoProgress where
  total_steps : Nat
  completed_steps : List String
  current_step_index : Nat
  status : String
  github_url : Option String
  meet_link : Option String
  session_id : Option String
  demo_start : Option Nat
deriving DecidableEq, Repr

/-- Demo-related attributes of `DemoAgent`, with the logical clock. -/
structure DemoAgentState where
  demo_session_id : Option String
  demo_start_time : Option Nat
  current_step : Option String
  demo_progress : DemoProgress
  clock : Nat
deriving DecidableEq, Repr

/-- Embeds `DemoAgent.__init__`: five steps (the setup script replaces the
initial interactive steps). -/
def init_demo_agent : DemoAgentState :=
  { demo_session_id := none, demo_start_time := none, current_step := none,
    demo_progress :=
      { total_steps := 5, completed_steps := [], current_step_index := 0,
        status := "initialized", github_url := none, meet_link := none,
        session_id := none, demo_start := none },
    clock := 0 }

/-- Embeds `DemoAgent.demo_steps` as set in `__init__`. -/
def demo_steps : List String :=
  ["run_setup_script", "navigate_to_meet", "join_meet_call",
   "start_screen_share", "wait_for_instructions"]

/-- Embeds `DemoAgent.validate_inputs`. -/
def validate_inputs (github_url meet_link : String) : Bool :=
  if !re_match_py github_pattern github_url then false
  else if !re_match_py meet_pattern meet_link then false
  else true

/-- Embeds `DemoAgent.initialize_demo_session`.  A `ValueError` is modelled as
`Except.error`; the session id is derived from the wall clock.  Note
that the reset progress dictionary sets `total_steps` to `8`. -/
def initialize_demo_session (github_url meet_link : String)
    (st : DemoAgentState) : DemoAgentState × Except String String :=
  if !validate_inputs github_url meet_link then
    (st, Except.error "Invalid GitHub URL or Meet link provided")
  else
    let sid := "demo_" ++ toString st.clock
    ({ st with
        demo_session_id := some sid,
        demo_start_time := some st.clock,
        demo_progress :=
          { total_steps := 8, completed_steps := [], current_step_index := 0,
            status := "running", github_url := some github_url,
            meet_link := some meet_link, session_id := some sid,
            demo_start := some st.clock },
        clock := st.clock + 1 },
     Except.ok sid)

/-- Embeds `DemoAgent.mark_step_completed` (logging aside). -/
def mark_step_completed (step_name : String) (success : Bool)
    (st : DemoAgentState) : DemoAgentState :=
  if success ∧ step_name ∉ st.demo_progress.completed_steps then
    let cs := st.demo_progress.completed_steps ++ [step_name]
    { st with demo_progress :=
        { st.demo_progress with completed_steps := cs, current_step_index := cs.length } }
  else st

/-- Embeds `DemoAgent.is_demo_complete`. -/
def is_demo_complete (st : DemoAgentState) : Bool :=
  st.demo_progress.total_steps ≤ st.demo_progress.completed_steps.length

/-- Embeds `DemoAgent.get_next_step`. -/
def get_next_step (st : DemoAgentState) : Option String :=
  demo_steps.get? st.demo_progress.completed_steps.length

/-- Session-progress states reachable through the progress-state
operations (construction, session initialization, step marking). -/
inductive ReachableDemoState : DemoAgentState → Prop where
  | init : ReachableDemoState init_demo_agent
  | session (g m : String) (s : DemoAgentState) :
      ReachableDemoState s → ReachableDemoState (initialize_demo_session g m s).1
  | mark (n : String) (b : Bool) (s : DemoAgentState) :
      ReachableDemoState s → ReachableDemoState (mark_step_completed n b s)

/-!
## Workflow orchestrator (`os_computer_use/demo_orchestrator.py`)

The per-attempt step execution
(`execute_step_with_verification` / `execute_single_step` plus the
external collaborators they drive) is abstracted as the step-runner
boundary `DemoEnv.attempt`, returning the result dictionary of one
attempt or raising.  The orchestrator's own control flow — retry loop,
logging, validation, abort-on-exhaustion, summary — is embedded
faithfully below.
-/

/-- Embeds `DemoConfig.MAX_RETRIES_PER_STEP`. -/
def MAX_RETRIES_PER_STEP : Nat := 3

/-- The result dictionary of one step attempt, with the keys read by the
orchestrator.  `parameters` is kept in its `str(...)` rendering, which
is all `_validate_step_success` ever looks at.  Absent optional keys are
`none`; an absent `completed` key reads as `false` (`.get("completed",
False)`). -/
structure StepResult where
  action : String
  parameters : String
  result : String
  completed : Bool
  verification : Option String
  follow_up_action : Option String
deriving DecidableEq, Repr

/-- Does the first character list begin with the second? -/
def chars_begin : List Char → List Char → Bool
  | _, [] => true
  | [], _ :: _ => false
  | c :: cs, d :: ds => c == d && chars_begin cs ds

def chars_contains : List Char → List Char → Bool
  | [], pat => pat.isEmpty
  | c :: cs, pat => chars_begin (c :: cs) pat || chars_contains cs pat

/-- Python `sub in s` on strings. -/
def str_contains (s sub : String) : Bool :=
  chars_contains s.toList sub.toList

/-- Python `s.lower()` (ASCII). -/
def str_lower (s : String) : String :=
  String.mk (s.toList.map Char.toLower)

def any_indicator (text : String) (indicators : List String) : Bool :=
  indicators.any (fun i => str_contains text i)

/-- Embeds `DemoOrchestrator._validate_step_success`, transliterated branch by
branch (including the unreachable duplicated `join_meet_call` /
`start_screen_share` branches of the original `elif` chain). -/
def validate_step_success (step_name : String) (r : StepResult) : Bool :=
  let action := r.action
  let result_text := str_lower r.result
  if r.completed then true
  else if step_name == "run_setup_script" then
    r.verification == some "success"
  else if step_name == "navigate_to_meet" then
    any_indicator result_text
      ["meet.google.com", "google meet", "join", "meeting", "navigated", "loaded"]
  else if step_name == "join_meet_call" then
    any_indicator result_text
      ["joined", "meeting", "participants", "in call", "camera", "microphone", "present"]
  else if step_name == "start_screen_share" then
    any_indicator result_text
      ["sharing", "screen", "present", "presenting", "shared"]
  else if step_name == "open_terminal" then
    any_indicator result_text
      ["terminal", "command prompt", "shell", "$", "user@", "opened"]
  else if step_name == "clone_repository" then
    if action == "run_command" && str_contains r.parameters "git clone" then
      any_indicator result_text
        ["cloning into", "clone", "done", "complete", "success",
         "receiving objects", "resolving deltas"]
    else if (action == "type_text" || action == "send_key") || r.follow_up_action.isSome then
      if str_contains r.parameters "git clone" || r.follow_up_action == some "send_key" then
        true
      else
        any_indicator result_text ["cloning", "clone", "typed", "entered", "pressed"]
    else
      any_indicator result_text ["cloning", "clone", "done", "complete", "success"]
  else if step_name == "navigate_to_repo" then
    if action == "run_command" && str_contains r.parameters "cd " then
      !str_contains result_text "error" && !str_contains result_text "not found"
    else if (action == "type_text" || action == "send_key") || r.follow_up_action.isSome then
      if str_contains r.parameters "cd " || r.follow_up_action == some "send_key" then
        true
      else
        any_indicator result_text
          ["changed", "directory", "moved", "cd", "typed", "pressed"]
    else
      any_indicator result_text ["changed", "directory", "moved", "cd"]
  else if step_name == "open_code_viewer" then
    any_indicator result_text
      ["code", "vs code", "vscode", "opened", "files", "listed", "editor"]
  else if step_name == "open_browser" then
    any_indicator result_text
      ["browser", "firefox", "chrome", "opened", "launched", "web"]
  else if step_name == "join_meet_call" then
    any_indicator result_text ["meet", "joined", "call", "connected", "guest", "video"]
  else if step_name == "start_screen_share" then
    any_indicator result_text ["screen", "sharing", "present", "share", "started"]
  else if step_name == "wait_for_instructions" then
    any_indicator result_text ["waiting", "ready", "complete", "active"]
  else
    any_indicator result_text
      ["success", "complete", "done", "finished", "opened", "started"]

/-- One execution-log entry.  The `try` path logs the result dictionary;
the `except` path logs the error report instead.  The instruction text
(an external prompt template) is not modelled. -/
structure LogEntry where
  step : String
  description : String
  attempt : Nat
  result : Option StepResult
  error : Option String
  success : Bool
  timestamp : Nat
deriving DecidableEq, Repr

/-- Embeds `DemoOrchestrator` state. -/
structure OrchState where
  agent : DemoAgentState
  max_retries : Nat
  execution_log : List LogEntry
  use_hybrid_approach : Bool
  clock : Nat
deriving DecidableEq, Repr

/-- Embeds `DemoOrchestrator.__init__` over a given agent state. -/
def init_orchestrator (agent : DemoAgentState) : OrchState :=
  { agent := agent, max_retries := MAX_RETRIES_PER_STEP, execution_log := [],
    use_hybrid_approach := true, clock := 0 }

/-- The step-runner boundary: one attempt of one named step, returning
the attempt's result dictionary or raising. -/
structure DemoEnv where
  attempt : String → Nat → Except String StepResult

/-- The body of one iteration of the
`for attempt in range(1, self.max_retries + 1)` loop of
`execute_step_with_retry`: execute the attempt (the `except` arm logging
an error entry), log exactly one entry, and either return success
(`some true`) or fall through to the next attempt (`none`). -/
def attempt_once (env : DemoEnv) (step_name description : String) (attempt : Nat)
    (st : OrchState) : OrchState × Option Bool :=
  match env.attempt step_name attempt with
  | Except.ok r =>
    let verification_success := r.verification == some "success"
    let step_completed := r.completed
    let validation_success := validate_step_success step_name r
    let success := step_completed || verification_success || validation_success
    let entry : LogEntry :=
      { step := step_name, description := description, attempt := attempt,
        result := some r, error := none, success := success, timestamp := st.clock }
    let st := { st with execution_log := st.execution_log ++ [entry],
                        clock := st.clock + 1 }
    if success then
      ({ st with agent := mark_step_completed step_name true st.agent }, some true)
    else if r.action == "stop" && validate_step_success step_name r then
      ({ st with agent := mark_step_completed step_name true st.agent }, some true)
    else
      (st, none)
  | Except.error e =>
    let entry : LogEntry :=
      { step := step_name, description := description, attempt := attempt,
        result := none, error := some e, success := false, timestamp := st.clock }
    ({ st with execution_log := st.execution_log ++ [entry], clock := st.clock + 1 },
     none)

/-- The `for attempt in range(1, self.max_retries + 1)` loop: recursion
over the remaining attempts, carrying the current attempt number.  When
the range is exhausted the step is marked failed and `False` returned. -/
def retry_attempts (env : DemoEnv) (step_name description : String) :
    Nat → Nat → OrchState → OrchState × Bool
  | 0, _, st => ({ st with agent := mark_step_completed step_name false st.agent }, false)
  | n + 1, attempt, st =>
    match attempt_once env step_name description attempt st with
    | (st', some b) => (st', b)
    | (st', none) => retry_attempts env step_name description n (attempt + 1) st'

/-- Embeds `DemoOrchestrator.execute_step_with_retry`. -/
def execute_step_with_retry (env : DemoEnv) (step_name description : String)
    (st : OrchState) : OrchState × Bool :=
  let st := { st with agent := { st.agent with current_step := some step_name } }
  retry_attempts env step_name description st.max_retries 1 st

/-- The hybrid step list of `run_full_demo`. -/
def hybrid_demo_steps (github_url meet_link : String) : List (String × String) :=
  [("run_setup_script", "Run setup script for " ++ github_url ++ " and " ++ meet_link),
   ("navigate_to_meet", "Navigate to Google Meet: " ++ meet_link),
   ("join_meet_call", "Join the Google Meet call"),
   ("start_screen_share", "Start screen sharing"),
   ("wait_for_instructions", "Wait for further instructions")]

/-- The legacy (fallback) step list of `run_full_demo`. -/
def legacy_demo_steps (github_url meet_link : String) : List (String × String) :=
  [("open_terminal", "Open terminal application"),
   ("clone_repository", "Clone repository: " ++ github_url),
   ("navigate_to_repo", "Navigate to repository directory"),
   ("open_code_viewer", "Open code viewer (VS Code or file listing)"),
   ("open_browser", "Open web browser"),
   ("join_meet_call", "Join Google Meet: " ++ meet_link),
   ("start_screen_share", "Start screen sharing"),
   ("wait_for_instructions", "Wait for further instructions")]

/-- The `for step_name, step_description in demo_steps` loop of
`run_full_demo`: break on a failed step, and break after the terminal
wait step succeeds. -/
def run_steps (env : DemoEnv) : List (String × String) → OrchState → OrchState
  | [], st => st
  | (step_name, description) :: rest, st =>
    let (st, success) := execute_step_with_retry env step_name description st
    if !success then st
    else if step_name == "wait_for_instructions" then st
    else run_steps env rest st

/-- Embeds `round(x, 1)` over exact rationals. -/
def round1 (q : ℚ) : ℚ := ((round (q * 10) : ℤ) : ℚ) / 10

/-- The summary dictionary of `get_execution_summary` (the fields a
caller can branch on; the nested progress dictionary and the VNC URL
are presentation-only). -/
structure WorkflowSummary where
  session_id : Option String
  success : Bool
  steps_completed : Nat
  total_steps : Nat
  completion_rate : ℚ
  execution_log : List LogEntry
  timestamp : Nat
deriving DecidableEq, Repr

/-- Embeds `DemoOrchestrator.get_execution_summary`. -/
def get_execution_summary (st : OrchState) : WorkflowSummary :=
  let total_steps := st.execution_log.length
  let successful_steps := (st.execution_log.filter (fun l => l.success)).length
  { session_id := st.agent.demo_session_id,
    success := is_demo_complete st.agent,
    steps_completed := successful_steps,
    total_steps := total_steps,
    completion_rate :=
      round1 (if 0 < total_steps then
                (successful_steps : ℚ) / (total_steps : ℚ) * 100
              else 0),
    execution_log := st.execution_log,
    timestamp := st.clock }

/-- Result of `run_full_demo`: the normal summary, or the error
dictionary built by the outer `except` (for instance when
`initialize_demo_session` raises `ValueError`). -/
inductive DemoResult where
  | summary : WorkflowSummary → DemoResult
  | errorResult : String → List LogEntry → Nat → DemoResult
deriving DecidableEq, Repr

/-- Embeds `DemoOrchestrator.run_full_demo`. -/
def run_full_demo (env : DemoEnv) (github_url meet_link : String)
    (st : OrchState) : DemoResult × OrchState :=
  match initialize_demo_session github_url meet_link st.agent with
  | (agent', Except.error e) =>
    (DemoResult.errorResult e st.execution_log st.clock, { st with agent := agent' })
  | (agent', Except.ok _) =>
    let st := { st with agent := agent' }
    let steps :=
      if st.use_hybrid_approach then hybrid_demo_steps github_url meet_link
      else legacy_demo_steps github_url meet_link
    let st := run_steps env steps st
    (DemoResult.summary (get_execution_summary st), st)

/-!
## Concrete collaborator behaviours and states

Closed inputs used to evaluate the model concretely (scenario claims,
witnesses, counterexamples).
-/

def init_run_state : RunState :=
  { messages := [], tracked_actions := [], call_function := FnVal.base,
    stop_detected := false, should_continue := false, iteration_count := 0,
    oracle_calls := 0, clock := 0 }

/-- An oracle that proposes `[click(x), type_text("hello"), stop]` in one
turn, over a normally behaving executor. -/
def env_click_type_stop : Env :=
  { oracle := fun _ => Except.ok (none,
      [⟨"click", [("x", "1")]⟩, ⟨"type_text", [("text", "hello")]⟩, ⟨"stop", []⟩]),
    base_call_function := fun n _ => Except.ok ("did " ++ n),
    append_screenshot := fun _ => Except.ok "shot",
    set_timeout := Except.ok () }

/-- An oracle that proposes no action at all, every turn. -/
def env_no_action : Env :=
  { env_click_type_stop with oracle := fun _ => Except.ok (none, []) }

/-- An oracle that proposes one non-stop action every turn, forever. -/
def env_always_click : Env :=
  { env_click_type_stop with oracle := fun _ => Except.ok (none, [⟨"click", []⟩]) }

/-- A sandbox whose `set_timeout` raises. -/
def env_timeout_fault : Env :=
  { env_click_type_stop with set_timeout := Except.error "boom" }

/-- Final state of a run whose oracle never proposes a stop: used to name
the loop-exit state of the iteration-cap scenario. -/
def capped_loop_state : RunState :=
  match run_loop env_always_click max_iterations (rwt_start "task" init_run_state) with
  | Except.ok st => st
  | Except.error (_, st) => st

/-- The state carried by the fault raised inside
`single_step_body env_timeout_fault "task" init_run_state`. -/
def timeout_fault_state : RunState := push_msg init_run_state "OBJECTIVE: task"

def ok_step_result : StepResult :=
  { action := "done_action", parameters := "", result := "ok", completed := true,
    verification := none, follow_up_action := none }

/-- A result that fails every success test: `completed=false`, no
verification, and a result text without any recognised keyword. -/
def fail_step_result : StepResult :=
  { action := "none", parameters := "", result := "nothing here", completed := false,
    verification := none, follow_up_action := none }

/-- Step runner for the three-step retry scenario: step `s1` always
succeeds, every other step always fails validation. -/
def env_step2_fails : DemoEnv :=
  { attempt := fun step _ =>
      if step == "s1" then Except.ok ok_step_result else Except.ok fail_step_result }

/-- Step runner for which every attempt of every step succeeds. -/
def env_all_succeed : DemoEnv :=
  { attempt := fun _ _ => Except.ok ok_step_result }

def good_github_url : String := "https://github.com/user/repo"

def good_meet_url : String := "https://meet.google.com/abc-defg-hij"

/-- Orchestrator state over an initialized demo session. -/
def initialized_orch_state : OrchState :=
  init_orchestrator (initialize_demo_session good_github_url good_meet_url init_demo_agent).1

def three_step_workflow : List (String × String) :=
  [("s1", "d1"), ("s2", "d2"), ("s3", "d3")]

/-- An orchestrator state with a two-entry execution log, one successful. -/
def two_entry_orch_state : OrchState :=
  { init_orchestrator init_demo_agent with
      execution_log :=
        [{ step := "a", description := "", attempt := 1, result := none,
           error := none, success := true, timestamp := 0 },
         { step := "b", description := "", attempt := 2, result := none,
           error := none, success := false, timestamp := 1 }] }

/-- The state reached by `run_steps` in the three-step retry scenario. -/
def three_step_final_state : OrchState :=
  run_steps env_step2_fails three_step_workflow initialized_orch_state

/-!
## Helper functions for stating facts about faulting computations

The state component of a step-runner computation, whether it returned or
raised (Python attribute mutations survive a raised exception). -/

def out_state : Except (String × RunState) RunState → RunState
  | Except.ok st => st
  | Except.error (_, st) => st

def out_state2 : Except (String × RunState) (String × RunState) → RunState
  | Except.ok (_, st) => st
  | Except.error (_, st) => st

instance {ε α : Type _} [DecidableEq ε] [DecidableEq α] : DecidableEq (Except ε α) :=
  fun x y =>
    match x, y with
    | Except.ok a, Except.ok b =>
      if h : a = b then isTrue (by rw [h])
      else isFalse (by intro hh; cases hh; exact h rfl)
    | Except.error a, Except.error b =>
      if h : a = b then isTrue (by rw [h])
      else isFalse (by intro hh; cases hh; exact h rfl)
    | Except.ok _, Except.error _ => isFalse (by intro hh; cases hh)
    | Except.error _, Except.ok _ => isFalse (by intro hh; cases hh)

/-!
## Supporting lemmas
-/

lemma interp_counters (env : Env) (f : FnVal) (name : String) (args : Params)
    (st : RunState) :
    (out_state2 (interp_call_function env f name args st)).iteration_count
        = st.iteration_count
    ∧ (out_state2 (interp_call_function env f name args st)).oracle_calls
        = st.oracle_calls := by
  induction f generalizing st with
  | base =>
    simp only [interp_call_function]
    cases h : env.base_call_function name args with
    | ok r => simp [out_state2]
    | error e => simp [out_state2]
  | tracked orig ih =>
    simp only [interp_call_function]
    cases h : interp_call_function env orig name args st with
    | error e =>
      have h2 := ih st
      rw [h] at h2
      obtain ⟨e1, st'⟩ := e
      simpa [out_state2] using h2
    | ok p =>
      obtain ⟨r, st'⟩ := p
      have h2 := ih st
      rw [h] at h2
      simp only [out_state2] at h2 ⊢
      exact h2

lemma process_tool_calls_counters (env : Env) (tcs : List ToolCall) (st : RunState) :
    (out_state (process_tool_calls env tcs st)).iteration_count = st.iteration_count
    ∧ (out_state (process_tool_calls env tcs st)).oracle_calls = st.oracle_calls := by
  induction tcs generalizing st with
  | nil => simp [process_tool_calls, out_state]
  | cons tc rest ih =>
    simp only [process_tool_calls]
    cases hstop : tc.name == "stop" with
    | true => simp [out_state]
    | false =>
      simp only [Bool.false_eq_true, if_false]
      cases h : interp_call_function env
          (push_msg { st with should_continue := tc.name != "stop" } (json_dumps tc)).call_function
          tc.name tc.parameters
          (push_msg { st with should_continue := tc.name != "stop" } (json_dumps tc)) with
      | error e =>
        have h2 := interp_counters env
          (push_msg { st with should_continue := tc.name != "stop" } (json_dumps tc)).call_function
          tc.name tc.parameters
          (push_msg { st with should_continue := tc.name != "stop" } (json_dumps tc))
        rw [h] at h2
        obtain ⟨e1, st'⟩ := e
        simp only [out_state2, push_msg] at h2
        simpa [out_state] using h2
      | ok p =>
        obtain ⟨r, st'⟩ := p
        have h2 := interp_counters env
          (push_msg { st with should_continue := tc.name != "stop" } (json_dumps tc)).call_function
          tc.name tc.parameters
          (push_msg { st with should_continue := tc.name != "stop" } (json_dumps tc))
        rw [h] at h2
        simp only [out_state2, push_msg] at h2
        have h3 := ih (push_msg st' ("OBSERVATION: " ++ r))
        simp only [push_msg] at h3 ⊢
        exact ⟨h3.1.trans h2.1, h3.2.trans h2.2⟩

lemma append_thought_iteration_count (content : Option String) (st : RunState) :
    (append_thought content st).iteration_count = st.iteration_count := by
  cases content <;> simp [append_thought, push_msg]

lemma append_thought_oracle_calls (content : Option String) (st : RunState) :
    (append_thought content st).oracle_calls = st.oracle_calls := by
  cases content <;> simp [append_thought, push_msg]

lemma run_iteration_counters (env : Env) (st : RunState) :
    (out_state (run_iteration env st)).iteration_count = st.iteration_count + 1
    ∧ (out_state (run_iteration env st)).oracle_calls ≤ st.oracle_calls + 1 := by
  simp only [run_iteration]
  split
  · simp [out_state]
  · split
    · simp [out_state]
    · split
      · simp [out_state]
      · exact ⟨(process_tool_calls_counters env _ _).1.trans
                 (by simp [append_thought_iteration_count]),
               le_trans (le_of_eq (process_tool_calls_counters env _ _).2)
                 (by simp [append_thought_oracle_calls])⟩

lemma run_loop_oracle_bound (env : Env) (fuel : Nat) (st : RunState) :
    (out_state (run_loop env fuel st)).oracle_calls ≤ st.oracle_calls + fuel := by
  induction fuel generalizing st with
  | zero => simp [run_loop, out_state]
  | succ n ih =>
    simp only [run_loop]
    by_cases hc : (st.should_continue = true ∧ st.iteration_count < max_iterations)
    · rw [if_pos hc]
      cases h : run_iteration env st with
      | error e =>
        have h2 := (run_iteration_counters env st).2
        rw [h] at h2
        obtain ⟨e1, st'⟩ := e
        simp only [out_state] at h2 ⊢
        omega
      | ok st' =>
        dsimp only
        have h2 := (run_iteration_counters env st).2
        rw [h] at h2
        simp only [out_state] at h2
        have h3 := ih st'
        omega
    · rw [if_neg hc]
      simp [out_state]

lemma run_loop_done (env : Env) (fuel : Nat) (st : RunState)
    (h : max_iterations ≤ st.iteration_count) :
    run_loop env fuel st = Except.ok st := by
  cases fuel with
  | zero => rfl
  | succ n =>
    simp only [run_loop]
    rw [if_neg]
    intro hc
    omega

lemma run_loop_fuel_irrelevant (env : Env) :
    ∀ fuel₁ fuel₂ st, max_iterations ≤ st.iteration_count + fuel₁ →
      max_iterations ≤ st.iteration_count + fuel₂ →
      run_loop env fuel₁ st = run_loop env fuel₂ st := by
  intro fuel₁
  induction fuel₁ with
  | zero =>
    intro fuel₂ st h₁ h₂
    rw [run_loop_done env fuel₂ st (by omega)]
    rfl
  | succ n ih =>
    intro fuel₂ st h₁ h₂
    cases fuel₂ with
    | zero =>
      rw [run_loop_done env (n + 1) st (by omega)]
      rfl
    | succ m =>
      simp only [run_loop]
      by_cases hc : (st.should_continue = true ∧ st.iteration_count < max_iterations)
      · rw [if_pos hc, if_pos hc]
        cases h : run_iteration env st with
        | error e => rfl
        | ok st' =>
          have h2 := (run_iteration_counters env st).1
          rw [h] at h2
          simp only [out_state] at h2
          exact ih m st' (by omega) (by omega)
      · rw [if_neg hc, if_neg hc]

/-!
## Claim theorems
-/

/-- C1: for every instruction (and every collaborator behaviour),
`run_with_tracking` issues at most `max_iterations = 20` oracle calls;
the loop's result does not depend on the fuel once it is at least the
iteration cap (the loop always terminates via the guard, never runs
indefinitely); and if the loop exits with the cap reached and no
termination token detected, a synthetic `action="timeout"`,
`completed=false` outcome is the final entry of the returned list and
the run returns `completed=false`. -/
theorem run_with_tracking_iteration_cap (env : Env) (instruction : String)
    (s0 : RunState) :
    (run_with_tracking env instruction s0).1.oracle_calls
        ≤ s0.oracle_calls + max_iterations
    ∧ (∀ fuel, max_iterations ≤ fuel →
        run_loop env fuel (rwt_start instruction s0)
          = run_loop env max_iterations (rwt_start instruction s0))
    ∧ (∀ st₁, run_loop env max_iterations (rwt_start instruction s0) = Except.ok st₁ →
        max_iterations ≤ st₁.iteration_count → st₁.stop_detected = false →
        (run_with_tracking env instruction s0).2.1.getLast?
            = some (timeout_entry st₁.clock)
        ∧ (timeout_entry st₁.clock).action = "timeout"
        ∧ (timeout_entry st₁.clock).completed = some false
        ∧ (run_with_tracking env instruction s0).2.2 = false) := by
  have hstart_oracle : (rwt_start instruction s0).oracle_calls = s0.oracle_calls := rfl
  have hstart_iter : (rwt_start instruction s0).iteration_count = 0 := rfl
  refine ⟨?_, ?_, ?_⟩
  · have hb := run_loop_oracle_bound env max_iterations (rwt_start instruction s0)
    cases h : run_loop env max_iterations (rwt_start instruction s0) with
    | ok st =>
      rw [h] at hb
      simp only [out_state, hstart_oracle] at hb
      simp only [run_with_tracking, h]
      by_cases hcap : (max_iterations ≤ st.iteration_count ∧ st.stop_detected = false)
      · rw [if_pos hcap]
        simpa using hb
      · rw [if_neg hcap]
        simpa using hb
    | error e =>
      obtain ⟨e1, st⟩ := e
      rw [h] at hb
      simp only [out_state, hstart_oracle] at hb
      simp only [run_with_tracking, h]
      simpa using hb
  · intro fuel hf
    exact run_loop_fuel_irrelevant env fuel max_iterations (rwt_start instruction s0)
      (by omega) (by omega)
  · intro st₁ h hcap hstop
    simp only [run_with_tracking, h]
    rw [if_pos ⟨hcap, hstop⟩]
    refine ⟨?_, rfl, rfl, hstop⟩
    simp [List.getLast?_concat]

/-- Witness for C1: with an oracle that proposes a single `click` every
turn, the run exits at the cap with a trailing timeout outcome, the
returned flag is false, and fuel 25 gives the same loop result as the
cap fuel 20. -/
theorem run_with_tracking_iteration_cap_witness :
    (run_with_tracking env_always_click "task" init_run_state).2.1.getLast?
        = some (timeout_entry capped_loop_state.clock)
    ∧ (run_with_tracking env_always_click "task" init_run_state).2.2 = false
    ∧ run_loop env_always_click 25 (rwt_start "task" init_run_state)
        = run_loop env_always_click max_iterations (rwt_start "task" init_run_state) := by
  have h := run_with_tracking_iteration_cap env_always_click "task" init_run_state
  refine ⟨?_, ?_, h.2.1 25 (by decide)⟩
  · exact (h.2.2 capped_loop_state (by decide) (by decide) (by decide)).1
  · exact (h.2.2 capped_loop_state (by decide) (by decide) (by decide)).2.2.2

lemma interp_should_continue (env : Env) (f : FnVal) (name : String) (args : Params)
    (st : RunState) :
    (out_state2 (interp_call_function env f name args st)).should_continue
      = st.should_continue := by
  induction f generalizing st with
  | base =>
    simp only [interp_call_function]
    cases h : env.base_call_function name args with
    | ok r => simp [out_state2]
    | error e => simp [out_state2]
  | tracked orig ih =>
    simp only [interp_call_function]
    cases h : interp_call_function env orig name args st with
    | error e =>
      have h2 := ih st
      rw [h] at h2
      obtain ⟨e1, st'⟩ := e
      simpa [out_state2] using h2
    | ok p =>
      obtain ⟨r, st'⟩ := p
      have h2 := ih st
      rw [h] at h2
      simpa [out_state2] using h2

lemma process_stop_head (env : Env) (tc : ToolCall) (rest : List ToolCall)
    (st : RunState) (h : tc.name = "stop") :
    process_tool_calls env (tc :: rest) st
      = Except.ok { st with should_continue := false, stop_detected := true } := by
  simp [process_tool_calls, h]

lemma process_stop_truncate (env : Env) (tc : ToolCall) (h : tc.name = "stop") :
    ∀ pre post st, process_tool_calls env (pre ++ tc :: post) st
      = process_tool_calls env (pre ++ [tc]) st := by
  intro pre
  induction pre with
  | nil =>
    intro post st
    rw [List.nil_append, List.nil_append, process_stop_head env tc post st h,
      process_stop_head env tc [] st h]
  | cons p pre ih =>
    intro post st
    simp only [List.cons_append, process_tool_calls]
    by_cases hp : (p.name == "stop") = true
    · rw [if_pos hp, if_pos hp]
    · rw [if_neg hp, if_neg hp]
      cases hi : interp_call_function env
          (push_msg { st with should_continue := p.name != "stop" } (json_dumps p)).call_function
          p.name p.parameters
          (push_msg { st with should_continue := p.name != "stop" } (json_dumps p)) with
      | error e => rfl
      | ok pr =>
        obtain ⟨r, st'⟩ := pr
        exact ih post (push_msg st' ("OBSERVATION: " ++ r))

/-- C2: a termination token proposed as the i-th of n actions of one
turn truncates the turn — the trailing actions are irrelevant to the
outcome of the turn; the stop case performs no executor call, merely
setting `stop_detected` (ending the loop) and clearing
`should_continue`; and concretely, a turn proposing
`[click(x), type_text("hello"), stop]` records exactly the two executed
outcomes and the run returns `completed=true`. -/
theorem stop_token_truncates :
    (∀ (env : Env) (pre : List ToolCall) (tc : ToolCall) (post : List ToolCall)
        (st : RunState), tc.name = "stop" →
        process_tool_calls env (pre ++ tc :: post) st
          = process_tool_calls env (pre ++ [tc]) st)
    ∧ (∀ (env : Env) (tc : ToolCall) (rest : List ToolCall) (st : RunState),
        tc.name = "stop" →
        process_tool_calls env (tc :: rest) st
          = Except.ok { st with should_continue := false, stop_detected := true })
    ∧ (run_with_tracking env_click_type_stop "task" init_run_state).2.1.map
          TrackedAction.action = ["click", "type_text"]
    ∧ (run_with_tracking env_click_type_stop "task" init_run_state).2.2 = true :=
  ⟨fun env pre tc post st h => process_stop_truncate env tc h pre post st,
   fun env tc rest st h => process_stop_head env tc rest st h,
   by decide, by decide⟩

/-- Witness for C2 at concrete inputs. -/
theorem stop_token_truncates_witness :
    process_tool_calls env_click_type_stop
        ([⟨"click", []⟩] ++ ⟨"stop", []⟩ :: [⟨"type_text", []⟩]) init_run_state
      = process_tool_calls env_click_type_stop
          ([⟨"click", []⟩] ++ [⟨"stop", []⟩]) init_run_state
    ∧ process_tool_calls env_click_type_stop (⟨"stop", []⟩ :: [⟨"click", []⟩])
          init_run_state
      = Except.ok
          { init_run_state with should_continue := false, stop_detected := true } :=
  ⟨stop_token_truncates.1 env_click_type_stop [⟨"click", []⟩] ⟨"stop", []⟩
      [⟨"type_text", []⟩] init_run_state rfl,
   stop_token_truncates.2.1 env_click_type_stop ⟨"stop", []⟩ [⟨"click", []⟩]
      init_run_state rfl⟩

lemma run_loop_stop (env : Env) (fuel : Nat) (st : RunState)
    (h : st.should_continue = false) : run_loop env fuel st = Except.ok st := by
  cases fuel with
  | zero => rfl
  | succ n =>
    simp only [run_loop]
    rw [if_neg]
    simp [h]

lemma no_stop_continue (env : Env) : ∀ (tcs : List ToolCall) (st st' : RunState),
    (∀ tc ∈ tcs, tc.name ≠ "stop") → tcs ≠ [] →
    process_tool_calls env tcs st = Except.ok st' → st'.should_continue = true := by
  intro tcs
  induction tcs with
  | nil => intro st st' _ hne; exact absurd rfl hne
  | cons tc rest ih =>
    intro st st' hno _ h
    have htc : tc.name ≠ "stop" := hno tc (List.mem_cons_self tc rest)
    have hbeq : (tc.name == "stop") = false := by
      simp only [beq_eq_false_iff_ne, ne_eq]
      exact htc
    simp only [process_tool_calls, hbeq, Bool.false_eq_true, if_false] at h
    split at h
    · exact absurd h (by simp)
    · rename_i r st₂ heq
      have hsc : st₂.should_continue = true := by
        have h2 := interp_should_continue env
          (push_msg { st with should_continue := tc.name != "stop" } (json_dumps tc)).call_function
          tc.name tc.parameters
          (push_msg { st with should_continue := tc.name != "stop" } (json_dumps tc))
        rw [heq] at h2
        simp only [out_state2, push_msg] at h2
        simpa [bne, hbeq] using h2
      cases rest with
      | nil =>
        simp only [process_tool_calls] at h
        injection h with h
        rw [← h]
        simpa [push_msg] using hsc
      | cons r2 rs =>
        exact ih (push_msg st₂ ("OBSERVATION: " ++ r)) st'
          (fun t htm => hno t (List.mem_cons_of_mem tc htm)) (by simp) h

lemma append_thought_tracked_actions (content : Option String) (st : RunState) :
    (append_thought content st).tracked_actions = st.tracked_actions := by
  cases content <;> simp [append_thought, push_msg]

lemma append_thought_stop_detected (content : Option String) (st : RunState) :
    (append_thought content st).stop_detected = st.stop_detected := by
  cases content <;> simp [append_thought, push_msg]

lemma run_loop_succ (env : Env) (fuel : Nat) (st : RunState) :
    run_loop env (fuel + 1) st =
      if st.should_continue ∧ st.iteration_count < max_iterations then
        match run_iteration env st with
        | Except.error e => Except.error e
        | Except.ok st' => run_loop env fuel st'
      else Except.ok st := rfl

lemma empty_turn_loop (env : Env) (instruction : String) (s0 : RunState)
    (ht : env.set_timeout = Except.ok ())
    (hs : ∀ m, ∃ s, env.append_screenshot m = Except.ok s)
    (ho : ∀ m, ∃ c, env.oracle m = Except.ok (c, [])) :
    ∃ T : RunState, run_loop env max_iterations (rwt_start instruction s0) = Except.ok T
      ∧ T.tracked_actions = [] ∧ T.stop_detected = false ∧ T.iteration_count = 1
      ∧ T.oracle_calls = s0.oracle_calls + 1 := by
  obtain ⟨shot, hshot⟩ := hs (rwt_start instruction s0).messages
  obtain ⟨c, hc⟩ := ho (oracle_input (rwt_start instruction s0).messages shot
    multi_step_prompt)
  have hiter : run_iteration env (rwt_start instruction s0) = Except.ok
      ({ append_thought c
          { rwt_start instruction s0 with
              iteration_count := (rwt_start instruction s0).iteration_count + 1,
              oracle_calls := (rwt_start instruction s0).oracle_calls + 1 }
          with should_continue := false }) := by
    simp only [run_iteration, ht, hshot, hc, process_tool_calls]
  have hloop : run_loop env max_iterations (rwt_start instruction s0) = Except.ok
      ({ append_thought c
          { rwt_start instruction s0 with
              iteration_count := (rwt_start instruction s0).iteration_count + 1,
              oracle_calls := (rwt_start instruction s0).oracle_calls + 1 }
          with should_continue := false }) := by
    show run_loop env (19 + 1) (rwt_start instruction s0) = _
    rw [run_loop_succ, if_pos ⟨rfl, (by decide : (0 : Nat) < 20)⟩, hiter]
    exact run_loop_stop env 19 _ rfl
  refine ⟨_, hloop, ?_, ?_, ?_, ?_⟩
  all_goals
    simp [append_thought_tracked_actions, append_thought_stop_detected,
      append_thought_iteration_count, append_thought_oracle_calls,
      rwt_start, install_tracking, push_msg]

/-- C3 counterexample: with an oracle that proposes no action at all,
`run_with_tracking` exits after a single iteration (one oracle call):
the outcome list is empty — it does not end with a timeout entry, and no
further iterations occur, contrary to the claim that such a run performs
`max_iterations` iterations and appends a timeout outcome. -/
theorem no_action_oracle_single_iteration :
    (run_with_tracking env_no_action "task" init_run_state).2.1 = []
    ∧ (run_with_tracking env_no_action "task" init_run_state).2.2 = false
    ∧ (run_with_tracking env_no_action "task" init_run_state).1.oracle_calls = 1
    ∧ (run_with_tracking env_no_action "task" init_run_state).1.iteration_count = 1 := by
  decide

/-- C3 (amended): a turn that finishes without the termination token
*and with at least one proposed action* leaves `should_continue` true,
so the loop proceeds to the next iteration; but a turn in which the
oracle proposes no action at all leaves `should_continue` false, ending
the loop at once — an oracle that always proposes nothing yields a
single iteration, an empty outcome list (no timeout entry) and
`completed=false`. -/
theorem no_stop_turn_behaviour :
    (∀ (env : Env) (tcs : List ToolCall) (st st' : RunState),
        (∀ tc ∈ tcs, tc.name ≠ "stop") → tcs ≠ [] →
        process_tool_calls env tcs st = Except.ok st' → st'.should_continue = true)
    ∧ (∀ (env : Env) (instruction : String) (s0 : RunState),
        env.set_timeout = Except.ok () →
        (∀ m, ∃ s, env.append_screenshot m = Except.ok s) →
        (∀ m, ∃ c, env.oracle m = Except.ok (c, [])) →
        (run_with_tracking env instruction s0).2.1 = []
        ∧ (run_with_tracking env instruction s0).2.2 = false
        ∧ (run_with_tracking env instruction s0).1.oracle_calls
            = s0.oracle_calls + 1) := by
  refine ⟨fun env => no_stop_continue env, ?_⟩
  intro env instruction s0 ht hs ho
  obtain ⟨T, hloop, hta, hsd, hic, hoc⟩ := empty_turn_loop env instruction s0 ht hs ho
  simp only [run_with_tracking, hloop]
  have hneg : ¬(max_iterations ≤ T.iteration_count ∧ T.stop_detected = false) := by
    intro hcontra
    rw [hic] at hcontra
    exact absurd hcontra.1 (by decide)
  rw [if_neg hneg]
  exact ⟨hta, hsd, hoc⟩

/-- Witness for C3 (amended) at concrete inputs. -/
theorem no_stop_turn_behaviour_witness :
    (out_state (process_tool_calls env_no_action [⟨"click", []⟩]
        init_run_state)).should_continue = true
    ∧ (run_with_tracking env_no_action "task" init_run_state).2.2 = false := by
  constructor
  · exact no_stop_turn_behaviour.1 env_no_action [⟨"click", []⟩] init_run_state
      (out_state (process_tool_calls env_no_action [⟨"click", []⟩] init_run_state))
      (by decide) (by decide) (by decide)
  · exact (no_stop_turn_behaviour.2 env_no_action "task" init_run_state rfl
      (fun m => ⟨"shot", rfl⟩) (fun m => ⟨none, rfl⟩)).2.1

/-- C4: `execute_single_step` is a total function into outcome
dictionaries (the `Outcome` record always carries the `action`,
`parameters`, `result`, `completed` and `timestamp` fields): a normal
body result is returned as is, and any fault raised anywhere in the body
— collaborator calls included — is caught and reported as an
`action="error"`, `completed=false` outcome; nothing propagates to the
caller. -/
theorem execute_single_step_never_raises (env : Env) (instruction : String)
    (s : RunState) :
    (∀ o s', single_step_body env instruction s = Except.ok (o, s') →
        execute_single_step env instruction s = (s', o))
    ∧ (∀ e s', single_step_body env instruction s = Except.error (e, s') →
        execute_single_step env instruction s =
          ({ s' with clock := s'.clock + 1 },
           { action := "error", parameters := [], result := "Error: " ++ e,
             completed := false, timestamp := s'.clock })) := by
  constructor
  · intro o s' h
    simp [execute_single_step, h]
  · intro e s' h
    simp [execute_single_step, h]

/-- Witness for C4: a faulting `set_timeout` is reported as an error
outcome. -/
theorem execute_single_step_never_raises_witness :
    execute_single_step env_timeout_fault "task" init_run_state =
      ({ timeout_fault_state with clock := timeout_fault_state.clock + 1 },
       { action := "error", parameters := [], result := "Error: " ++ "boom",
         completed := false, timestamp := timeout_fault_state.clock }) :=
  (execute_single_step_never_raises env_timeout_fault "task" init_run_state).2
    "boom" timeout_fault_state (by decide)

/-- C5: the tracking substitution alters only the `call_function`
attribute of the agent (every other field of `install_tracking s` equals
that of `s`), and on every exit path of `run_with_tracking` — normal
completion, iteration-cap timeout, or a caught fault — the original
`call_function` is restored in the returned state. -/
theorem call_function_restored (env : Env) (instruction : String) (s0 : RunState) :
    (run_with_tracking env instruction s0).1.call_function = s0.call_function
    ∧ (∀ s : RunState,
        (install_tracking s).call_function = FnVal.tracked s.call_function
        ∧ (install_tracking s).messages = s.messages
        ∧ (install_tracking s).tracked_actions = s.tracked_actions
        ∧ (install_tracking s).stop_detected = s.stop_detected
        ∧ (install_tracking s).should_continue = s.should_continue
        ∧ (install_tracking s).iteration_count = s.iteration_count
        ∧ (install_tracking s).oracle_calls = s.oracle_calls
        ∧ (install_tracking s).clock = s.clock) := by
  constructor
  · cases h : run_loop env max_iterations (rwt_start instruction s0) with
    | ok st =>
      simp only [run_with_tracking, h]
    | error e =>
      obtain ⟨e1, st⟩ := e
      simp only [run_with_tracking, h]
  · intro s
    exact ⟨rfl, rfl, rfl, rfl, rfl, rfl, rfl, rfl⟩

lemma attempt_once_appends (env : DemoEnv) (step desc : String) (a : Nat)
    (st : OrchState) :
    ∃ entry, (attempt_once env step desc a st).1.execution_log
      = st.execution_log ++ [entry] := by
  simp only [attempt_once]
  split
  · split
    · exact ⟨_, rfl⟩
    · split
      · exact ⟨_, rfl⟩
      · exact ⟨_, rfl⟩
  · exact ⟨_, rfl⟩

lemma attempt_once_result (env : DemoEnv) (step desc : String) (a : Nat)
    (st : OrchState) :
    (attempt_once env step desc a st).2 = none
      ∨ (attempt_once env step desc a st).2 = some true := by
  simp only [attempt_once]
  split
  · split
    · right; rfl
    · split
      · right; rfl
      · left; rfl
  · left; rfl

lemma retry_attempts_log_count (env : DemoEnv) (step desc : String) :
    ∀ (n a : Nat) (st : OrchState), ∃ k, k ≤ n
      ∧ (retry_attempts env step desc n a st).1.execution_log.length
          = st.execution_log.length + k
      ∧ ((retry_attempts env step desc n a st).2 = false → k = n) := by
  intro n
  induction n with
  | zero =>
    intro a st
    exact ⟨0, le_refl 0, rfl, fun _ => rfl⟩
  | succ n ih =>
    intro a st
    obtain ⟨entry, hE⟩ := attempt_once_appends env step desc a st
    have hor := attempt_once_result env step desc a st
    simp only [retry_attempts]
    rcases hA : attempt_once env step desc a st with ⟨st', ob⟩
    rw [hA] at hE hor
    simp only at hE hor
    cases ob with
    | none =>
      obtain ⟨k, hk, hlen, hfail⟩ := ih (a + 1) st'
      refine ⟨k + 1, by omega, ?_, ?_⟩
      · simp only []
        rw [hlen, hE]
        simp [List.length_append]
        omega
      · intro hr
        simp only [] at hr
        rw [hfail hr]
    | some b =>
      have hb : b = true := by
        rcases hor with h | h
        · exact absurd h (by simp)
        · simpa using h
      refine ⟨1, by omega, ?_, ?_⟩
      · simp only []
        rw [hE]
        simp [List.length_append]
      · intro hr
        simp only [] at hr
        rw [hb] at hr
        exact absurd hr (by simp)

/-- C6: every attempt of every step appends exactly one execution-log
entry (whether it succeeds, fails validation, or raises — the raising
arm logs an error entry); exhausting the retry range appends exactly one
entry per budgeted attempt; a failed step aborts the remaining workflow
(`run_steps` stops at the failing step); and the concrete three-step
scenario with retry budget `MAX_RETRIES_PER_STEP = 3` whose second step
always fails validation yields exactly 4 log entries — one success for
step 1, three failures for step 2 — never reaches step 3, and its
summary reports `success=false`. -/
theorem retry_logging_and_abort :
    (∀ (env : DemoEnv) (step desc : String) (a : Nat) (st : OrchState),
        ∃ entry, (attempt_once env step desc a st).1.execution_log
          = st.execution_log ++ [entry])
    ∧ (∀ (env : DemoEnv) (step desc : String) (n a : Nat) (st : OrchState),
        ∃ k, k ≤ n
          ∧ (retry_attempts env step desc n a st).1.execution_log.length
              = st.execution_log.length + k
          ∧ ((retry_attempts env step desc n a st).2 = false → k = n))
    ∧ (∀ (env : DemoEnv) (step desc : String) (rest : List (String × String))
        (st : OrchState), (execute_step_with_retry env step desc st).2 = false →
        run_steps env ((step, desc) :: rest) st
          = (execute_step_with_retry env step desc st).1)
    ∧ three_step_final_state.execution_log.map
          (fun e => (e.step, e.attempt, e.success))
        = [("s1", 1, true), ("s2", 1, false), ("s2", 2, false), ("s2", 3, false)]
    ∧ (get_execution_summary three_step_final_state).success = false := by
  refine ⟨attempt_once_appends, fun env step desc => retry_attempts_log_count env step desc,
    ?_, by decide, by decide⟩
  intro env step desc rest st h
  rcases hE : execute_step_with_retry env step desc st with ⟨st', succ⟩
  rw [hE] at h
  simp only at h
  simp only [run_steps, hE]
  simp [h]

/-- Witness for C6 at concrete inputs. -/
theorem retry_logging_and_abort_witness :
    (retry_attempts env_step2_fails "s2" "d2" 3 1
        initialized_orch_state).1.execution_log.length
      = initialized_orch_state.execution_log.length + 3
    ∧ run_steps env_step2_fails [("s2", "d2"), ("s3", "d3")] initialized_orch_state
      = (execute_step_with_retry env_step2_fails "s2" "d2"
          initialized_orch_state).1 := by
  constructor
  · obtain ⟨k, hk, hlen, hfail⟩ :=
      retry_logging_and_abort.2.1 env_step2_fails "s2" "d2" 3 1 initialized_orch_state
    rw [hfail (by decide)] at hlen
    exact hlen
  · exact retry_logging_and_abort.2.2.1 env_step2_fails "s2" "d2" [("s3", "d3")]
      initialized_orch_state (by decide)

/-- C7: evaluation of the failing input.  `DemoAgent.__init__` documents
a 5-step scripted-setup workflow (`total_steps: 5`, "Reduced from 8
since script handles setup") and `run_full_demo` indeed executes the
5-step hybrid workflow; but `initialize_demo_session` resets
`total_steps` to 8, so after a hybrid run in which all five steps
succeed the progress state holds 5 completed steps out of a recorded
total of 8, `is_demo_complete()` is false, and the summary of the fully
successful run reports `success=false`. -/
theorem hybrid_run_total_steps_mismatch :
    (run_full_demo env_all_succeed good_github_url good_meet_url
        (init_orchestrator init_demo_agent)).2.agent.demo_progress.completed_steps
      = ["run_setup_script", "navigate_to_meet", "join_meet_call",
         "start_screen_share", "wait_for_instructions"]
    ∧ (run_full_demo env_all_succeed good_github_url good_meet_url
        (init_orchestrator init_demo_agent)).2.agent.demo_progress.total_steps = 8
    ∧ init_demo_agent.demo_progress.total_steps = 5
    ∧ is_demo_complete (run_full_demo env_all_succeed good_github_url good_meet_url
        (init_orchestrator init_demo_agent)).2.agent = false
    ∧ (run_full_demo env_all_succeed good_github_url good_meet_url
          (init_orchestrator init_demo_agent)).1
        = DemoResult.summary (get_execution_summary
            (run_full_demo env_all_succeed good_github_url good_meet_url
              (init_orchestrator init_demo_agent)).2)
    ∧ (get_execution_summary (run_full_demo env_all_succeed good_github_url
          good_meet_url (init_orchestrator init_demo_agent)).2).success = false := by
  exact ⟨by decide, by decide, by decide, by decide, rfl, by decide⟩

lemma mark_step_completed_already (s : DemoAgentState) (n : String) (b : Bool)
    (hmem : n ∈ s.demo_progress.completed_steps) : mark_step_completed n b s = s := by
  simp only [mark_step_completed]
  rw [if_neg]
  intro hc
  exact hc.2 hmem

/-- C8: `mark_step_completed` is idempotent on the completed-steps set —
from any state in which a name occurs at most once (which the invariant
below guarantees), marking it completed twice leaves it in the set
exactly once; every state reachable through the progress-state
operations has a duplicate-free completed list; marking an
already-completed step changes nothing; and marking with
`success=false` changes nothing. -/
theorem mark_step_completed_idempotent :
    (∀ (s : DemoAgentState) (n : String),
        s.demo_progress.completed_steps.count n ≤ 1 →
        (mark_step_completed n true (mark_step_completed n true
            s)).demo_progress.completed_steps.count n = 1)
    ∧ (∀ s, ReachableDemoState s → s.demo_progress.completed_steps.Nodup)
    ∧ (∀ (s : DemoAgentState) (n : String) (b : Bool),
        n ∈ s.demo_progress.completed_steps → mark_step_completed n b s = s)
    ∧ (∀ (s : DemoAgentState) (n : String), mark_step_completed n false s = s) := by
  refine ⟨?_, ?_, mark_step_completed_already, ?_⟩
  · intro s n hcount
    by_cases hmem : n ∈ s.demo_progress.completed_steps
    · rw [mark_step_completed_already s n true hmem,
        mark_step_completed_already s n true hmem]
      have hpos : 0 < s.demo_progress.completed_steps.count n :=
        List.count_pos_iff.mpr hmem
      omega
    · have h1 : mark_step_completed n true s
          = { s with demo_progress :=
              { s.demo_progress with
                  completed_steps := s.demo_progress.completed_steps ++ [n],
                  current_step_index :=
                    (s.demo_progress.completed_steps ++ [n]).length } } := by
        simp only [mark_step_completed]
        rw [if_pos ⟨trivial, hmem⟩]
      rw [h1, mark_step_completed_already _ n true (by simp)]
      simp [List.count_append, List.count_eq_zero.mpr hmem]
  · intro s h
    induction h with
    | init => simp [init_demo_agent]
    | session g m s hs ih =>
      simp only [initialize_demo_session]
      split
      · exact ih
      · simp
    | mark n b s hs ih =>
      simp only [mark_step_completed]
      split
      · rename_i hcond
        simp only []
        refine List.Nodup.append ih (List.nodup_singleton n) ?_
        intro x hx hmemx
        simp only [List.mem_singleton] at hmemx
        subst hmemx
        exact hcond.2 hx
      · exact ih
  · intro s n
    simp only [mark_step_completed]
    rw [if_neg]
    intro hc
    exact absurd hc.1 (by simp)

/-- Witness for C8 at concrete inputs. -/
theorem mark_step_completed_idempotent_witness :
    (mark_step_completed "s" true (mark_step_completed "s" true
        init_demo_agent)).demo_progress.completed_steps.count "s" = 1
    ∧ init_demo_agent.demo_progress.completed_steps.Nodup
    ∧ mark_step_completed "s" true (mark_step_completed "s" true init_demo_agent)
        = mark_step_completed "s" true init_demo_agent
    ∧ mark_step_completed "s" false init_demo_agent = init_demo_agent :=
  ⟨mark_step_completed_idempotent.1 init_demo_agent "s" (by decide),
   mark_step_completed_idempotent.2.1 init_demo_agent ReachableDemoState.init,
   mark_step_completed_idempotent.2.2.1
     (mark_step_completed "s" true init_demo_agent) "s" true (by decide),
   mark_step_completed_idempotent.2.2.2 init_demo_agent "s"⟩

/-- C9: the workflow summary's `completion_rate` equals
`round(successful / total * 100, 1)` over all execution-log entries, and
an empty execution log yields `completion_rate = 0`. -/
theorem completion_rate_formula (st : OrchState) :
    (st.execution_log = [] → (get_execution_summary st).completion_rate = 0)
    ∧ (st.execution_log ≠ [] →
        (get_execution_summary st).completion_rate
          = round1 (((st.execution_log.filter (fun e => e.success)).length : ℚ)
              / (st.execution_log.length : ℚ) * 100)) := by
  constructor
  · intro h
    simp [get_execution_summary, h, round1]
  · intro h
    have hlen : 0 < st.execution_log.length := List.length_pos.mpr h
    simp [get_execution_summary, hlen]

/-- Witness for C9 at a concrete two-entry log. -/
theorem completion_rate_formula_witness :
    (get_execution_summary two_entry_orch_state).completion_rate
      = round1 (((two_entry_orch_state.execution_log.filter
            (fun e => e.success)).length : ℚ)
          / (two_entry_orch_state.execution_log.length : ℚ) * 100) :=
  (completion_rate_formula two_entry_orch_state).2 (by decide)

/-- C10: `initialize_demo_session` raises `ValueError` exactly when the
GitHub URL fails the HTTPS GitHub pattern or the Meet link fails the
Google Meet pattern (validation is the conjunction of the two pattern
matches), and when it raises, the session state is returned unchanged —
validation happens before any mutation; on success the session id is
derived from the wall clock. -/
theorem initialize_session_validation (g m : String) (st : DemoAgentState) :
    (validate_inputs g m
        = (re_match_py github_pattern g && re_match_py meet_pattern m))
    ∧ (validate_inputs g m = false →
        initialize_demo_session g m st
          = (st, Except.error "Invalid GitHub URL or Meet link provided"))
    ∧ (validate_inputs g m = true →
        (initialize_demo_session g m st).2
          = Except.ok ("demo_" ++ toString st.clock)) := by
  refine ⟨?_, ?_, ?_⟩
  · simp only [validate_inputs]
    cases re_match_py github_pattern g <;> cases re_match_py meet_pattern m <;> simp
  · intro h
    simp [initialize_demo_session, h]
  · intro h
    simp [initialize_demo_session, h]

/-- Witness for C10: an invalid (non-HTTPS) GitHub URL raises with the
state unchanged; valid inputs succeed. -/
theorem initialize_session_validation_witness :
    initialize_demo_session "http://github.com/a/b" good_meet_url init_demo_agent
      = (init_demo_agent, Except.error "Invalid GitHub URL or Meet link provided")
    ∧ (initialize_demo_session good_github_url good_meet_url init_demo_agent).2
      = Except.ok ("demo_" ++ toString init_demo_agent.clock) :=
  ⟨(initialize_session_validation "http://github.com/a/b" good_meet_url
      init_demo_agent).2.1 (by decide),
   (initialize_session_validation good_github_url good_meet_url
      init_demo_agent).2.2 (by decide)⟩
